import Mathlib

/-!
Shallow embedding of the flow-sure container library (Ok / Nil / Err).

The embedding follows the class-based revision of `src/lib/ok.ts` and
`src/lib/nil.ts`, the prototype-based `Err` of `src/unnamed/part_006`,
the `result`/`task`/`flow`/`wrap` revision of `src/lib/result.ts`
(lines 110-222 of the concatenated file), the `maybe` normalizer of
`src/lib/maybe.ts` (there named `of`, with identical body), and the
retry-capable `gather` of `src/index.ts` together with `task` of
`src/unnamed/part_001`.

JavaScript runtime values are modeled by the inductive type `Value`.
Structured (mutable) payloads are modeled opaquely by an identity tag,
since no operation of the library inspects their fields; on this pure
value domain a deep copy (`structuredClone`) is the identity, so
`tryClone` is the identity function.  Exceptions are modeled with
`Except Value` (JavaScript can throw arbitrary values).  Promise
resolution is immediate in the model (the library awaits every async
step before continuing), so the `task` boundary coincides with the
`result` boundary.  Object identity, where it is observable
(`Nil.instance`, distinct structured payloads), is modeled by numeric
identity tags.
-/

namespace FlowSure

/-- A JavaScript `Error` object: its constructor name (`Error`,
`TypeError`, `ReferenceError`, ...) and its `message`. -/
structure JsError where
  name : String
  message : String
deriving DecidableEq, Repr

/-- JavaScript runtime values, as far as the library observes them:
nullish values, primitive scalars, `Error` objects, structured mutable
objects (opaque, tagged by identity), functions (opaque, tagged by
identity), and the three container classes.  An `Ok` instance is
`okC slot mut` while its value slot is set, and `okGone mut` after the
slot has been cleared to the `UNSET` sentinel by a destructive `get`.
A `Nil` instance carries its allocation tag; `Nil.instance` is tag 0. -/
inductive Value where
  | undefV
  | nullV
  | num (n : Int)
  | str (s : String)
  | bool (b : Bool)
  | errObj (e : JsError)
  | objV (id : Nat)
  | funcV (id : Nat)
  | okC (slot : Value) (mutFlag : Bool)
  | okGone (mutFlag : Bool)
  | nilC (id : Nat)
  | errC (e : JsError)
deriving DecidableEq, Repr

/-- `value == null` (nullish test used by `maybe` and `toResult`). -/
def isNullish : Value → Bool
  | .undefV => true
  | .nullV => true
  | _ => false

/-- `util.ts` `isMutable`: `typeof value === "object" && value !== null`.
Error objects and container instances are objects too. -/
def isMutable : Value → Bool
  | .errObj _ => true
  | .objV _ => true
  | .okC _ _ => true
  | .okGone _ => true
  | .nilC _ => true
  | .errC _ => true
  | _ => false

/-- `util.ts` `isError`: `value instanceof Error`. -/
def isError : Value → Bool
  | .errObj _ => true
  | _ => false

/-- `ok.ts` `isOk`: `value instanceof Ok`. -/
def isOk : Value → Bool
  | .okC _ _ => true
  | .okGone _ => true
  | _ => false

/-- The shared `Nil.instance` singleton (`static instance = new Nil()`). -/
def nilInstance : Value := .nilC 0

/-- `nil.ts` `nil()`: returns the singleton `Nil.instance`. -/
def nil (_ : Unit) : Value := nilInstance

/-- `nil.ts` `isNil`: reference equality `value === Nil.instance`. -/
def isNil (v : Value) : Bool := v = nilInstance

/-- `err` module `isErr`: `value instanceof Err`. -/
def isErr : Value → Bool
  | .errC _ => true
  | _ => false

/-- `maybe.ts` `isMaybe`: `isOk(value) || isNil(value)`. -/
def isMaybe (v : Value) : Bool := isOk v || isNil v

/-- `result.ts` `isResult`: `isOk(value) || isNil(value) || isErr(value)`. -/
def isResultC (v : Value) : Bool := isOk v || isNil v || isErr v

/-- JavaScript `String(value)` coercion, as used by the `err`
constructor on non-Error throwables. -/
def strValue : Value → String
  | .undefV => "undefined"
  | .nullV => "null"
  | .num n => toString n
  | .str s => s
  | .bool b => if b then "true" else "false"
  | .errObj e => e.name ++ ": " ++ e.message
  | .funcV _ => "function"
  | _ => "[object Object]"

/-- `util.ts` `tryClone`: `structuredClone` for mutable values, the
value itself otherwise.  On the pure value domain a deep copy is
indistinguishable from the value, so the model is the identity. -/
def tryClone (v : Value) : Value := v

/-- The `Ok` constructor: `this.value = tryClone(value, false);
this.mut = isMutable(value)`. -/
def okCtor (v : Value) : Value := .okC (tryClone v) (isMutable v)

/-- The error normalization inside `err`:
`isError(error) ? error : new Error(String(error))`. -/
def toJsError (v : Value) : JsError :=
  match v with
  | .errObj e => e
  | w => ⟨"Error", strValue w⟩

/-- `part_006` `err`: `new Err(isError(error) ? error : new Error(String(error)))`. -/
def err (v : Value) : Value := .errC (toJsError v)

/-- `maybe.ts` normalizer (`of`): nullish values to `Nil`, values that
are already `Ok`/`Nil` pass through, everything else is wrapped in `Ok`. -/
def maybe (v : Value) : Value :=
  if isNullish v then nil () else if isMaybe v then v else okCtor v

/-- `result.ts` `wrap`: `isErr(value) ? value : isError(value) ? err(value) : maybe(value)`. -/
def wrap (v : Value) : Value :=
  if isErr v then v else if isError v then err v else maybe v

/-- The `result` failure boundary of `result.ts`: given the outcome of
`fn(...args)` (a normal return or a thrown value), `try { return
wrap(fn(...args)) } catch (error) { return err(error) }`. -/
def resultB (c : Except Value Value) : Value :=
  match c with
  | .ok v => wrap v
  | .error t => err t

/-- `ok.ts` `consumedError`:
`new ReferenceError("Mutable reference has already been consumed")`. -/
def consumedError : JsError :=
  ⟨"ReferenceError", "Mutable reference has already been consumed"⟩

/-- `get()`, dispatched over the container variants, returning the read
value together with the updated receiver (only `Ok.get` mutates: for a
mutable payload it clears the slot to `UNSET`).  `Ok.get` on a consumed
instance throws `consumedError`; `Nil.get` returns `undefined`;
`Err.get` re-throws the stored error object. -/
def getOp : Value → Except Value (Value × Value)
  | .okC v m => .ok (v, if m then .okGone m else .okC v m)
  | .okGone _ => .error (.errObj consumedError)
  | .nilC id => .ok (.undefV, .nilC id)
  | .errC e => .error (.errObj e)
  | v => .ok (.undefV, v)

/-- `map`, dispatched over the variants.  `Ok.map`: `if (this.gone)
throw consumedError; return ok(fn(this.value))` — a throw inside `fn`
propagates.  `Nil.map` and `Err.map` are no-ops returning `this`. -/
def mapOp (self : Value) (f : Value → Except Value Value) : Except Value Value :=
  match self with
  | .okGone _ => .error (.errObj consumedError)
  | .okC v _ => do
      let u ← f v
      pure (okCtor u)
  | .nilC id => .ok (.nilC id)
  | .errC e => .ok (.errC e)
  | v => .ok v

/-- `chain`, dispatched over the variants.  `Ok.chain`:
`this.gone ? err(consumedError) : result(() => fn(this.value))` — the
callback runs inside the `result` boundary, so `chain` never throws.
`Nil.chain` and `Err.chain` are no-ops returning `this`. -/
def chain (self : Value) (f : Value → Except Value Value) : Value :=
  match self with
  | .okGone _ => err (.errObj consumedError)
  | .okC v _ => resultB (f v)
  | .nilC id => .nilC id
  | .errC e => .errC e
  | v => v

/-- `await`, the asynchronous counterpart of `chain` (`Ok.await` uses
the `task` boundary, which on the pure domain coincides with the
`result` boundary; `Nil.await` resolves with `this`). -/
def awaitOp (self : Value) (f : Value → Except Value Value) : Value :=
  match self with
  | .okGone _ => err (.errObj consumedError)
  | .okC v _ => resultB (f v)
  | .nilC id => .nilC id
  | v => v

/-- JavaScript truthiness of the predicate result used by `Ok.filter`. -/
def truthy : Value → Bool
  | .undefV => false
  | .nullV => false
  | .num n => n != 0
  | .str s => !s.isEmpty
  | .bool b => b
  | _ => true

/-- `filter`, dispatched over the variants.  `Ok.filter`:
`!this.gone && fn(this.value) ? this : nil()` (on a consumed instance
the conjunction short-circuits, the predicate is not invoked).
`Nil.filter` is a no-op returning `this`; `Err.filter` is
`() => nil()` and never invokes the predicate. -/
def filterOp (self : Value) (p : Value → Except Value Value) : Except Value Value :=
  match self with
  | .okGone _ => .ok (nil ())
  | .okC v m => do
      let b ← p v
      pure (if truthy b then .okC v m else nil ())
  | .nilC id => .ok (.nilC id)
  | .errC _ => .ok (nil ())
  | v => .ok v

/-- `guard`: `Ok.guard` delegates to `this.filter(fn)`; `Nil.guard` and
`Err.guard` behave exactly like their `filter`. -/
def guardOp (self : Value) (p : Value → Except Value Value) : Except Value Value :=
  filterOp self p

/-- `or`, dispatched over the variants.  `Ok.or` returns `this`
unchanged.  `Nil.or` and `Err.or` are both `fn => maybe(fn())`: the
fallback is invoked with no argument (so a unary `fn` receives
`undefined`) and the result is normalized by `maybe`. -/
def orOp (self : Value) (fn : Value → Except Value Value) : Except Value Value :=
  match self with
  | .okC v m => .ok (.okC v m)
  | .okGone m => .ok (.okGone m)
  | .nilC _ => do
      let w ← fn .undefV
      pure (maybe w)
  | .errC _ => do
      let w ← fn .undefV
      pure (maybe w)
  | v => .ok v

/-- `catch`, dispatched over the variants.  `Ok.catch` and `Nil.catch`
return `this`; `Err.catch` is `fn(this.error)`, returning the handler
result verbatim. -/
def catchOp (self : Value) (fn : Value → Except Value Value) : Except Value Value :=
  match self with
  | .okC v m => .ok (.okC v m)
  | .okGone m => .ok (.okGone m)
  | .nilC id => .ok (.nilC id)
  | .errC e => fn (.errObj e)
  | v => .ok v

/-- The `Cases` record of `util.ts`: optional handlers for the `Ok`,
`Nil`, `Err` and `Gone` cases (the zero-argument handlers are modeled
by their outcome). -/
structure MatchCases where
  okH : Option (Value → Except Value Value)
  nilH : Option (Except Value Value)
  errH : Option (Value → Except Value Value)
  goneH : Option (Except Value Value)

/-- `match`, dispatched over the variants: invoke the matching handler
if supplied, else return `this` (for a consumed `Ok` without a `Gone`
handler, return `err(consumedError)`). -/
def matchOp (self : Value) (cs : MatchCases) : Except Value Value :=
  match self with
  | .okGone _ =>
      match cs.goneH with
      | some r => r
      | none => .ok (err (.errObj consumedError))
  | .okC v m =>
      match cs.okH with
      | some f => f v
      | none => .ok (.okC v m)
  | .nilC id =>
      match cs.nilH with
      | some r => r
      | none => .ok (.nilC id)
  | .errC e =>
      match cs.errH with
      | some f => f (.errObj e)
      | none => .ok (.errC e)
  | v => .ok v

/-- The `TypeError` produced by `flow` on a non-callable step:
`new TypeError("Expected a function in flow")`. -/
def flowTypeError : JsError := ⟨"TypeError", "Expected a function in flow"⟩

/-- One entry of the `flow` step list: either a callable step function
(tagged with an identity so invocations can be observed) or a
non-callable value. -/
inductive Step where
  | fn (id : Nat) (f : Value → Except Value Value)
  | notFn (v : Value)

/-- The loop of `flow` in `result.ts`: for each step, if the current
state is `Err`, break; if the step is not callable, return
`err(new TypeError("Expected a function in flow"))`; otherwise read the
payload with `res.get()` (a throw there rejects the whole flow) and set
the state to the step outcome normalized through the `result`/`task`
boundary.  The returned list records the identities of the step
functions that were invoked, in order. -/
def flowGo : Value → List Step → Except Value (Value × List Nat)
  | res, [] => .ok (res, [])
  | res, s :: rest =>
    if isErr res then .ok (res, [])
    else
      match s with
      | .notFn _ => .ok (err (.errObj flowTypeError), [])
      | .fn id f => do
          let pr ← getOp res
          let res2 := resultB (f pr.1)
          let (fin, ids) ← flowGo res2 rest
          pure (fin, id :: ids)

/-- `flow` seeded with an initial value (first argument not a
function): `let res = wrap(fns.shift())`, then the loop.  (With a
function as first argument the seed is `nil()` instead.) -/
def flow (initial : Value) (steps : List Step) : Except Value (Value × List Nat) :=
  flowGo (wrap initial) steps

/-- `index.ts` `ensure`: `!isDefined(value) ? Nil() : isMaybe(value) ?
value : Ok(value)`.  (In that revision `Ok` stores the payload without
cloning and `Nil()` builds a fresh tag object; neither difference is
observable through `gather`, so the shared constructors are reused.) -/
def ensure (v : Value) : Value :=
  if isNullish v then nil () else if isMaybe v then v else okCtor v

/-- `index.ts` `errOrEnsure`: `isErr(value) ? value : ensure(value)`. -/
def errOrEnsure (v : Value) : Value :=
  if isErr v then v else ensure v

/-- `index.ts` `wrapErr`: `Err(error instanceof Error ? error : new
Error(String(error)))`. -/
def wrapErr (v : Value) : Value := .errC (toJsError v)

/-- The recursive `attemptTask` inside `index.ts` `gather`: run
`fn()` (attempt `i` of the model resolves or rejects according to
`attempts i`); on resolution normalize with `errOrEnsure`; on rejection,
if `retries < 1` return `wrapErr(error)`, else wait `delay`, then retry
with `retries - 1` and `delay * 2`.  The model also returns the number
of invocations of `fn` and the list of delays waited, in order. -/
def gatherGo (attempts : Nat → Except Value Value) : Nat → Nat → Int → Value × Nat × List Int
  | i, 0, _ =>
    match attempts i with
    | .ok v => (errOrEnsure v, 1, [])
    | .error e => (wrapErr e, 1, [])
  | i, r + 1, delay =>
    match attempts i with
    | .ok v => (errOrEnsure v, 1, [])
    | .error _ =>
      let nxt := gatherGo attempts (i + 1) r (delay * 2)
      (nxt.1, nxt.2.1 + 1, delay :: nxt.2.2)

/-- Default retry budget of `gather` and `task`: `retries = 0`. -/
def gatherDefaultRetries : Nat := 0

/-- Default initial backoff of `gather` and `task`: `delay = 1000` ms. -/
def gatherDefaultDelay : Int := 1000

/-- `gather` called without the optional parameters: `retries = 0`,
`delay = 1000`. -/
def gather (attempts : Nat → Except Value Value) : Value × Nat × List Int :=
  gatherGo attempts 0 gatherDefaultRetries gatherDefaultDelay

/-- `part_001` `option`: `isDefined(value) ? Ok(value) : Nil()`. -/
def option (v : Value) : Value :=
  if isNullish v then nil () else okCtor v

/-- The recursive `attemptTask` inside `part_001` `task`: same retry
structure as `gather`, but resolution is normalized with `option` and
the final rejection is stored as `Err(error)` without coercion (the
model covers rejections with `Error` objects, which are stored
unchanged). -/
def taskGo (attempts : Nat → Except JsError Value) : Nat → Nat → Int → Value × Nat × List Int
  | i, 0, _ =>
    match attempts i with
    | .ok v => (option v, 1, [])
    | .error e => (.errC e, 1, [])
  | i, r + 1, delay =>
    match attempts i with
    | .ok v => (option v, 1, [])
    | .error _ =>
      let nxt := taskGo attempts (i + 1) r (delay * 2)
      (nxt.1, nxt.2.1 + 1, delay :: nxt.2.2)

/-- The `double` step of the flow short-circuit scenario: `x => x * 2`. -/
def double (v : Value) : Except Value Value :=
  match v with
  | .num n => .ok (.num (n * 2))
  | _ => .ok .undefV

/-- The error produced by the always-failing step of the scenario. -/
def boomError : JsError := ⟨"Error", "boom"⟩

/-- The `fail_step` of the flow short-circuit scenario: always returns
an `Err` container. -/
def failStep (_ : Value) : Except Value Value := .ok (.errC boomError)

/-- The `half` step of the flow short-circuit scenario: `x => x / 2`. -/
def half (v : Value) : Except Value Value :=
  match v with
  | .num n => .ok (.num (n / 2))
  | _ => .ok .undefV

deriving instance DecidableEq for Except

/-- The `maybe` normalizer always returns a container. -/
theorem maybe_isResultC (v : Value) : isResultC (maybe v) = true := by
  unfold maybe
  split
  · decide
  split
  · rename_i h1 h2
    simp [isResultC, isMaybe] at h2 ⊢
    tauto
  · simp [isResultC, isOk, okCtor]

/-- `wrap` passes containers through unchanged. -/
theorem wrap_of_resultC (r : Value) (h : isResultC r = true) : wrap r = r := by
  cases r <;>
    simp_all [isResultC, isOk, isNil, isErr, wrap, isError, maybe, isNullish,
      isMaybe, nilInstance, nil]

/-- The exponential backoff schedule: the delays for `n + 1` rounds are
the current delay followed by the schedule for `n` rounds at the
doubled delay. -/
theorem backoff_delays (delay : Int) (n : Nat) :
    (List.range (n + 1)).map (fun j => delay * 2 ^ j)
      = delay :: (List.range n).map (fun j => delay * 2 * 2 ^ j) := by
  rw [List.range_succ_eq_map, List.map_cons, List.map_map]
  simp only [pow_zero, mul_one]
  have hfun : ((fun j : Nat => delay * 2 ^ j) ∘ Nat.succ)
      = (fun j : Nat => delay * 2 * 2 ^ j) := by
    funext j
    simp [Function.comp, pow_succ]
    ring
  rw [hfun]

/-- If every attempt up to the retry budget rejects, `gather` performs
exactly `r + 1` attempts, doubles the delay each round, and returns the
last rejection wrapped as `Err`. -/
theorem gatherGo_all_fail (attempts : Nat → Except Value Value) (efn : Nat → Value) :
    ∀ (r i : Nat) (delay : Int), (∀ j, j ≤ r → attempts (i + j) = .error (efn (i + j))) →
    gatherGo attempts i r delay =
      (wrapErr (efn (i + r)), r + 1, (List.range r).map fun j => delay * 2 ^ j) := by
  intro r
  induction r with
  | zero =>
    intro i delay h
    have h0 := h 0 (Nat.le_refl 0)
    simp only [Nat.add_zero] at h0
    simp [gatherGo, h0]
  | succ n ih =>
    intro i delay h
    have h0 := h 0 (Nat.zero_le _)
    simp only [Nat.add_zero] at h0
    have hrest : ∀ j, j ≤ n → attempts (i + 1 + j) = .error (efn (i + 1 + j)) := by
      intro j hj
      have h2 := h (j + 1) (Nat.succ_le_succ hj)
      have he : i + (j + 1) = i + 1 + j := by omega
      rw [he] at h2
      exact h2
    have hih := ih (i + 1) (delay * 2) hrest
    have hidx : i + 1 + n = i + (n + 1) := by omega
    rw [hidx] at hih
    simp only [gatherGo, h0, hih, backoff_delays]

/-- `gather` never performs more than `r + 1` attempts, whatever the
attempt outcomes are. -/
theorem gatherGo_count_le (attempts : Nat → Except Value Value) :
    ∀ (r i : Nat) (delay : Int), (gatherGo attempts i r delay).2.1 ≤ r + 1 := by
  intro r
  induction r with
  | zero =>
    intro i delay
    unfold gatherGo
    cases attempts i <;> simp
  | succ n ih =>
    intro i delay
    unfold gatherGo
    cases attempts i with
    | ok v => simp
    | error e =>
      have := ih (i + 1) (delay * 2)
      simp only []
      omega

/-- `task` analogue of `gatherGo_all_fail`: with every attempt
rejecting, the final rejection is returned as `Err` storing the error
object unchanged. -/
theorem taskGo_all_fail (attempts : Nat → Except JsError Value) (efn : Nat → JsError) :
    ∀ (r i : Nat) (delay : Int), (∀ j, j ≤ r → attempts (i + j) = .error (efn (i + j))) →
    taskGo attempts i r delay =
      (.errC (efn (i + r)), r + 1, (List.range r).map fun j => delay * 2 ^ j) := by
  intro r
  induction r with
  | zero =>
    intro i delay h
    have h0 := h 0 (Nat.le_refl 0)
    simp only [Nat.add_zero] at h0
    simp [taskGo, h0]
  | succ n ih =>
    intro i delay h
    have h0 := h 0 (Nat.zero_le _)
    simp only [Nat.add_zero] at h0
    have hrest : ∀ j, j ≤ n → attempts (i + 1 + j) = .error (efn (i + 1 + j)) := by
      intro j hj
      have h2 := h (j + 1) (Nat.succ_le_succ hj)
      have he : i + (j + 1) = i + 1 + j := by omega
      rw [he] at h2
      exact h2
    have hih := ih (i + 1) (delay * 2) hrest
    have hidx : i + 1 + n = i + (n + 1) := by omega
    rw [hidx] at hih
    simp only [taskGo, h0, hih, backoff_delays]

/-- C1: for a structured (mutable) payload `v`, the first `get()` on
`Ok(v)` returns a value deep-equal to `v` (the deep copy made at
construction, the identity on the pure value domain) and clears the
slot; on the consumed instance a second `get()` and a `map` raise the
consumed-reference failure as a thrown `ReferenceError`, and `chain`
produces it as the `Err(consumedError)` container.  A non-structured
payload `w` (scalar, function) is read repeatedly without failure: the
instance is unchanged by `get()`. -/
theorem ok_consumption_linear (v w : Value) (f g : Value → Except Value Value)
    (hv : isMutable v = true) (hw : isMutable w = false) :
    getOp (okCtor v) = .ok (v, .okGone true)
    ∧ getOp (.okGone true) = .error (.errObj consumedError)
    ∧ mapOp (.okGone true) f = .error (.errObj consumedError)
    ∧ chain (.okGone true) g = .errC consumedError
    ∧ getOp (okCtor w) = .ok (w, okCtor w) := by
  refine ⟨?_, rfl, rfl, rfl, ?_⟩
  · simp [okCtor, tryClone, getOp, hv]
  · simp [okCtor, tryClone, getOp, hw]

/-- Witness for C1 at a structured payload (`objV 7`) and a scalar
payload (`num 3`). -/
theorem ok_consumption_linear_witness :
    (isMutable (.objV 7) = true ∧ isMutable (.num 3) = false)
    ∧ (getOp (okCtor (.objV 7)) = .ok (.objV 7, .okGone true)
      ∧ getOp (.okGone true) = .error (.errObj consumedError)
      ∧ mapOp (.okGone true) double = .error (.errObj consumedError)
      ∧ chain (.okGone true) half = .errC consumedError
      ∧ getOp (okCtor (.num 3)) = .ok (.num 3, okCtor (.num 3))) :=
  ⟨⟨by decide, by decide⟩,
    ok_consumption_linear (.objV 7) (.num 3) double half (by decide) (by decide)⟩

/-- C2: once the running state of `flow` is an `Err`, the loop breaks:
no later step function is invoked and that `Err` is the overall result.
In particular `flow(5, double, fail_step, half)` returns the `Err`
produced by `fail_step` and records invocations of `double` (id 0) and
`fail_step` (id 1) only — `half` (id 2) is never invoked. -/
theorem flow_short_circuit (e : JsError) (steps : List Step) :
    flowGo (.errC e) steps = .ok (.errC e, [])
    ∧ flow (.num 5) [Step.fn 0 double, Step.fn 1 failStep, Step.fn 2 half]
        = .ok (.errC boomError, [0, 1]) := by
  constructor
  · cases steps <;> rfl
  · decide

/-- C3: on `Err(e)`, `get()` throws exactly the stored error object `e`
and no other operation throws: `map`, `chain`, `filter`, `guard` ignore
their callback and return a container; `or` with a non-throwing
fallback, `catch` with a non-throwing handler, and `match` with a
non-throwing `Err` handler return the handler outcome without raising
(`or` additionally normalizes it into a container through `maybe`). -/
theorem err_never_throws (e : JsError) (g p q : Value → Except Value Value)
    (fo fc fm : Value → Except Value Value) (w r m : Value)
    (ho : fo .undefV = .ok w) (hc : fc (.errObj e) = .ok r) (hm : fm (.errObj e) = .ok m) :
    getOp (.errC e) = .error (.errObj e)
    ∧ mapOp (.errC e) g = .ok (.errC e)
    ∧ chain (.errC e) g = .errC e
    ∧ filterOp (.errC e) p = .ok (nil ())
    ∧ guardOp (.errC e) q = .ok (nil ())
    ∧ orOp (.errC e) fo = .ok (maybe w)
    ∧ isResultC (maybe w) = true
    ∧ catchOp (.errC e) fc = .ok r
    ∧ matchOp (.errC e) ⟨none, none, some fm, none⟩ = .ok m := by
  refine ⟨rfl, rfl, rfl, rfl, rfl, ?_, maybe_isResultC w, hc, hm⟩
  simp [orOp, ho]

/-- Witness for C3 at `e = boomError` with concrete non-throwing
handlers. -/
theorem err_never_throws_witness :
    getOp (.errC boomError) = .error (.errObj boomError)
    ∧ mapOp (.errC boomError) double = .ok (.errC boomError)
    ∧ chain (.errC boomError) double = .errC boomError
    ∧ filterOp (.errC boomError) double = .ok (nil ())
    ∧ guardOp (.errC boomError) double = .ok (nil ())
    ∧ orOp (.errC boomError) (fun _ => .ok (.num 1)) = .ok (maybe (.num 1))
    ∧ isResultC (maybe (.num 1)) = true
    ∧ catchOp (.errC boomError) (fun x => .ok (okCtor x)) = .ok (okCtor (.errObj boomError))
    ∧ matchOp (.errC boomError) ⟨none, none, some (fun _ => .ok (.num 9)), none⟩
        = .ok (.num 9) :=
  err_never_throws boomError double double double
    (fun _ => .ok (.num 1)) (fun x => .ok (okCtor x)) (fun _ => .ok (.num 9))
    (.num 1) (okCtor (.errObj boomError)) (.num 9) rfl rfl rfl

/-- C4: monad left identity for `Ok`: when `f` returns a `Result`
container at `x`, `Ok(x).chain(f)` is exactly `f(x)` — `chain` runs the
callback in the `result` boundary and `wrap` passes containers through
unchanged. -/
theorem ok_chain_left_identity (x r : Value) (f : Value → Except Value Value)
    (h1 : f x = .ok r) (h2 : isResultC r = true) :
    chain (okCtor x) f = r := by
  have hc : chain (okCtor x) f = resultB (f x) := rfl
  rw [hc, h1]
  exact wrap_of_resultC r h2

/-- Witness for C4 at `x = 3` and `f = v => Ok(v)`. -/
theorem ok_chain_left_identity_witness :
    chain (okCtor (.num 3)) (fun v => .ok (okCtor v)) = .okC (.num 3) false :=
  ok_chain_left_identity (.num 3) (.okC (.num 3) false)
    (fun v => .ok (okCtor v)) rfl (by decide)

/-- C5 counterexample: `Err.prototype.or` is `fn => maybe(fn())` — the
fallback is invoked with no argument, not with the stored error.  With
the identity fallback `v => v`, the claim predicts
`maybe(error) = Ok(error)`, but the code produces `maybe(undefined) =
Nil`. -/
theorem err_or_passes_error_cex :
    orOp (.errC ⟨"Error", "boom"⟩) (fun v => Except.ok v) = .ok (nil ())
    ∧ orOp (.errC ⟨"Error", "boom"⟩) (fun v => Except.ok v)
        ≠ .ok (maybe (.errObj ⟨"Error", "boom"⟩)) := by
  constructor
  · decide
  · decide

/-- C5 (amended): `Err(e).or(fn)` invokes the fallback with no argument
(a unary `fn` receives `undefined`; the stored error is not passed),
and normalizes the returned value through the Maybe rule: nullish
results yield `Nil`, defined non-container results yield `Ok` of the
result. -/
theorem err_or_fallback (e : JsError) (fn : Value → Except Value Value) (w : Value)
    (h : fn .undefV = .ok w) :
    orOp (.errC e) fn = .ok (maybe w)
    ∧ (isNullish w = true → maybe w = nil ())
    ∧ (isNullish w = false → isMaybe w = false → maybe w = okCtor w) := by
  refine ⟨by simp [orOp, h], ?_, ?_⟩
  · intro hw
    simp [maybe, hw]
  · intro h1 h2
    simp [maybe, h1, h2]

/-- Witness for C5 (amended) at `e = boomError` and a fallback
returning `1`. -/
theorem err_or_fallback_witness :
    orOp (.errC boomError) (fun _ => .ok (.num 1)) = .ok (maybe (.num 1))
    ∧ (isNullish (.num 1) = true → maybe (.num 1) = nil ())
    ∧ (isNullish (.num 1) = false → isMaybe (.num 1) = false
        → maybe (.num 1) = okCtor (.num 1)) :=
  err_or_fallback boomError (fun _ => .ok (.num 1)) (.num 1) rfl

/-- C6: the retry-capable constructors (`gather` of `index.ts`, `task`
of `part_001`; parameters `retries` defaulting to 0 and `delay`
defaulting to 1000) invoke the operation at most `retries + 1` times;
when every attempt rejects they wait the current delay after each
failure with the delay doubled each round, and return the final
rejection as an `Err` value instead of throwing it. -/
theorem gather_retry_backoff
    (att attF : Nat → Except Value Value) (attT : Nat → Except JsError Value)
    (efn : Nat → Value) (tfn : Nat → JsError) (retries : Nat) (delay : Int)
    (hF : ∀ j, j ≤ retries → attF j = .error (efn j))
    (hT : ∀ j, j ≤ retries → attT j = .error (tfn j)) :
    (gatherGo att 0 retries delay).2.1 ≤ retries + 1
    ∧ gatherGo attF 0 retries delay
        = (wrapErr (efn retries), retries + 1, (List.range retries).map fun j => delay * 2 ^ j)
    ∧ taskGo attT 0 retries delay
        = (.errC (tfn retries), retries + 1, (List.range retries).map fun j => delay * 2 ^ j)
    ∧ gather att = gatherGo att 0 0 1000 := by
  refine ⟨gatherGo_count_le att retries 0 delay, ?_, ?_, rfl⟩
  · have h := gatherGo_all_fail attF efn retries 0 delay (by simpa using hF)
    simpa using h
  · have h := taskGo_all_fail attT tfn retries 0 delay (by simpa using hT)
    simpa using h

/-- Witness for C6 with 2 retries, initial delay 5, an
always-succeeding attempt for the bound, and always-rejecting attempts
for the failure path. -/
theorem gather_retry_backoff_witness :
    (gatherGo (fun _ => .ok (.num 7)) 0 2 5).2.1 ≤ 2 + 1
    ∧ gatherGo (fun _ => .error (.str "x")) 0 2 5
        = (wrapErr (.str "x"), 2 + 1, (List.range 2).map fun j => 5 * 2 ^ j)
    ∧ taskGo (fun _ => .error boomError) 0 2 5
        = (.errC boomError, 2 + 1, (List.range 2).map fun j => 5 * 2 ^ j)
    ∧ gather (fun _ => .ok (.num 7)) = gatherGo (fun _ => .ok (.num 7)) 0 0 1000 :=
  gather_retry_backoff (fun _ => .ok (.num 7)) (fun _ => .error (.str "x"))
    (fun _ => .error boomError) (fun _ => .str "x") (fun _ => boomError) 2 5
    (fun _ _ => rfl) (fun _ _ => rfl)

/-- C7 counterexample: the malformed-pipeline `Err` carries the message
"Expected a function in flow" (capital E), not
"expected a function in flow" as the claim states. -/
theorem flow_notfn_message_cex :
    flow (.num 5) [Step.notFn (.num 7)] = .ok (.errC flowTypeError, [])
    ∧ flowTypeError.message ≠ "expected a function in flow" := by
  constructor
  · decide
  · decide

/-- C7 (amended): when `flow` meets a non-callable step while the
current state is not an `Err`, it stops immediately and returns an
`Err` whose message is "Expected a function in flow"; no subsequent
step is invoked (the invocation list of the remainder is empty). -/
theorem flow_notfn_stops (res v : Value) (rest : List Step) (h : isErr res = false) :
    flowGo res (Step.notFn v :: rest) = .ok (.errC flowTypeError, [])
    ∧ flowTypeError.message = "Expected a function in flow" := by
  constructor
  · simp [flowGo, h]
    rfl
  · rfl

/-- Witness for C7 (amended): a non-callable step (`7`) after an `Ok`
state, followed by a function step that is never invoked. -/
theorem flow_notfn_stops_witness :
    flowGo (.okC (.num 5) false) (Step.notFn (.num 7) :: [Step.fn 0 double])
        = .ok (.errC flowTypeError, [])
    ∧ flowTypeError.message = "Expected a function in flow" :=
  flow_notfn_stops (.okC (.num 5) false) (.num 7) [Step.fn 0 double] (by decide)

/-- C8: the `err` constructor stores an `Error` input unchanged and
coerces any non-Error input into a new `Error` whose message is the
stringified input; the `result`/`task` failure boundaries build their
`Err` from the caught value through this constructor. -/
theorem err_payload_normalized (e : JsError) (v t : Value) (h : isError v = false) :
    err (.errObj e) = .errC e
    ∧ err v = .errC ⟨"Error", strValue v⟩
    ∧ resultB (.error t) = err t := by
  refine ⟨rfl, ?_, rfl⟩
  cases v <;> simp_all [err, toJsError, isError]

/-- Witness for C8 at a string throwable. -/
theorem err_payload_normalized_witness :
    err (.errObj boomError) = .errC boomError
    ∧ err (.str "oops") = .errC ⟨"Error", strValue (.str "oops")⟩
    ∧ resultB (.error (.str "oops")) = err (.str "oops") :=
  err_payload_normalized boomError (.str "oops") (.str "oops") (by decide)

/-- C9: `nil()` always returns the one shared `Nil.instance`; `map`,
`chain`, `await`, `filter`, `guard` and `catch` on a `Nil` instance
return that very instance (the same identity tag); and `isNil` holds
exactly on `Nil.instance` (reference equality, so a separately
allocated `Nil` object would not satisfy it). -/
theorem nil_singleton (id : Nat) (f g a p q c : Value → Except Value Value) (v : Value) :
    nil () = nilInstance
    ∧ mapOp (.nilC id) f = .ok (.nilC id)
    ∧ chain (.nilC id) g = .nilC id
    ∧ awaitOp (.nilC id) a = .nilC id
    ∧ filterOp (.nilC id) p = .ok (.nilC id)
    ∧ guardOp (.nilC id) q = .ok (.nilC id)
    ∧ catchOp (.nilC id) c = .ok (.nilC id)
    ∧ (isNil v = true ↔ v = nilInstance) := by
  refine ⟨rfl, rfl, rfl, rfl, rfl, rfl, rfl, ?_⟩
  simp [isNil]

/-- C10: callback exceptions are handled asymmetrically by `Ok`: when
`f` throws at `x`, `Ok(x).map(f)` propagates the throw natively (no
`Err` container is produced), while `Ok(x).chain(f)` runs `f` inside
the `result` boundary and returns an `Err` wrapping the thrown error. -/
theorem ok_map_chain_throw_asymmetry (x t : Value) (f : Value → Except Value Value)
    (h : f x = .error t) :
    mapOp (okCtor x) f = .error t
    ∧ chain (okCtor x) f = err t := by
  constructor
  · simp [mapOp, okCtor, tryClone, h]
  · simp [chain, okCtor, tryClone, resultB, h]

/-- Witness for C10 at `x = 1` and a callback throwing an `Error`
object. -/
theorem ok_map_chain_throw_asymmetry_witness :
    mapOp (okCtor (.num 1)) (fun _ => .error (.errObj boomError)) = .error (.errObj boomError)
    ∧ chain (okCtor (.num 1)) (fun _ => .error (.errObj boomError)) = err (.errObj boomError) :=
  ok_map_chain_throw_asymmetry (.num 1) (.errObj boomError)
    (fun _ => .error (.errObj boomError)) rfl

end FlowSure
